import Mathlib

/-!
# Weather page (`src/pages/index.js`): shallow embedding and verified properties

The `Home` component keeps four pieces of state (`weather`, `forecast`, `loading`, `error`),
refreshes them with `fetchWeather`, and derives presentation values with the pure helpers
`getWeatherIcon`, `getWeatherDescription`, `getDayName`, `willRainSoon` and `getNextRainInfo`.

Modelling conventions.
* JavaScript numbers that come out of the parsed JSON bodies are rationals (`ℚ`); weather codes
  are integers.
* Reading an array past its end gives `undefined`, and `undefined > c` is `false`; an array read
  is therefore an `Option` and `jsGreater` is the comparison `x > c` on such a read.
* A `Date` is its time value (milliseconds since the epoch, an `Int`).  An ISO date-only string
  `YYYY-MM-DD` is represented by the number of that calendar day counted from 1970-01-01;
  `new Date(dateStr)` is UTC midnight of that day.  `toDateString()` and `getDay()` read the
  date in the local time zone of the browser, which at time value `t` is `utcOffset t`
  milliseconds ahead of UTC (the offset may change with `t`, as at a daylight-saving change).
  Two `toDateString()` results are equal exactly when the local calendar days are equal, so the
  rendering is represented by the local day number.
* A state cell or parsed body that is `null` (or another falsy value: the code only tests
  `!weather`, `!forecast`, `weather &&`, `forecast &&`) is `none`; a present one is an object of
  the documented shape.  `json()` may return either, and the setters store what it returned.
-/

namespace Home

/-! ## Data model -/

/-- The `current` object of the current-conditions body (fields read by the helpers). -/
structure Current where
  rain : ℚ
  weather_code : Int
  deriving DecidableEq, Repr

/-- Parsed current-conditions body (`weather`). -/
structure Weather where
  current : Current
  deriving DecidableEq, Repr

/-- The `daily` object of the forecast body: parallel arrays indexed by day. -/
structure Daily where
  time : List Int
  precipitation_probability_max : List ℚ
  deriving DecidableEq, Repr

/-- Parsed forecast body (`forecast`). -/
structure Forecast where
  daily : Daily
  deriving DecidableEq, Repr

/-- The four `useState` cells of the component. -/
structure PageState where
  weather : Option Weather
  forecast : Option Forecast
  loading : Bool
  error : Option String
  deriving DecidableEq, Repr

/-- Initial values passed to `useState` (lines 4-7). -/
def initialState : PageState :=
  { weather := none, forecast := none, loading := true, error := none }

/-- The comparison `x > c` where `x` is an array read: `undefined > c` is `false`. -/
def jsGreater (x : Option ℚ) (c : ℚ) : Bool :=
  match x with
  | some q => decide (c < q)
  | none => false

/-! ## Weather-code bands -/

/-- Lines 50-61. -/
def getWeatherIcon (code : Int) : String :=
  if code = 0 then "☀️"
  else if code ≤ 3 then "⛅"
  else if code ≤ 48 then "🌫️"
  else if code ≤ 67 then "🌧️"
  else if code ≤ 77 then "🌨️"
  else if code ≤ 82 then "🌧️"
  else if code ≤ 86 then "🌨️"
  else if code ≤ 99 then "⛈️"
  else "🌤️"

/-- Lines 63-73. -/
def getWeatherDescription (code : Int) : String :=
  if code = 0 then "Céu limpo"
  else if code ≤ 3 then "Parcialmente nublado"
  else if code ≤ 48 then "Neblina"
  else if code ≤ 67 then "Chuva"
  else if code ≤ 77 then "Neve"
  else if code ≤ 82 then "Chuva forte"
  else if code ≤ 86 then "Neve forte"
  else if code ≤ 99 then "Tempestade"
  else "Indefinido"

/-- The band table of the specification for the icon mapping, in the order the specification
lists it: a guard on the code and the icon of the band. -/
def iconBandTable : List ((Int → Bool) × String) :=
  [ (fun code => decide (code = 0), "☀️"),
    (fun code => decide (code ≤ 3), "⛅"),
    (fun code => decide (code ≤ 48), "🌫️"),
    (fun code => decide (code ≤ 67), "🌧️"),
    (fun code => decide (code ≤ 77), "🌨️"),
    (fun code => decide (code ≤ 82), "🌧️"),
    (fun code => decide (code ≤ 86), "🌨️"),
    (fun code => decide (code ≤ 99), "⛈️") ]

/-- First-match lookup in a band table, with a default when no guard holds. -/
def firstMatch (table : List ((Int → Bool) × String)) (dflt : String) (code : Int) : String :=
  match table with
  | [] => dflt
  | (guard, value) :: rest => if guard code then value else firstMatch rest dflt code

/-- Index of the band a code falls into under the thresholds 0, 3, 48, 67, 77, 82, 86, 99
(8 is the fallback band). -/
def bandIndex (code : Int) : Fin 9 :=
  if code = 0 then 0
  else if code ≤ 3 then 1
  else if code ≤ 48 then 2
  else if code ≤ 67 then 3
  else if code ≤ 77 then 4
  else if code ≤ 82 then 5
  else if code ≤ 86 then 6
  else if code ≤ 99 then 7
  else 8

/-- Icon of each band. -/
def bandIcon (b : Fin 9) : String :=
  ["☀️", "⛅", "🌫️", "🌧️", "🌨️", "🌧️", "🌨️", "⛈️", "🌤️"].getD b.val ""

/-- Description of each band. -/
def bandDescription (b : Fin 9) : String :=
  ["Céu limpo", "Parcialmente nublado", "Neblina", "Chuva", "Neve", "Chuva forte",
    "Neve forte", "Tempestade", "Indefinido"].getD b.val ""

/-! ## Rain alert -/

/-- Lines 81-91; the closure variables `weather` and `forecast` are parameters. -/
def willRainSoon (weather : Option Weather) (forecast : Option Forecast) : Bool :=
  match weather, forecast with
  | some weather, some forecast =>
    if weather.current.rain > 0 then true
    else if jsGreater forecast.daily.precipitation_probability_max[0]? 50 then true
    else false
  | _, _ => false

/-! ## Dates -/

/-- What the `Date` operations read from the environment: the time value returned by
`new Date()` and, for each time value, the offset of the browser's local time zone from UTC in
force at that time, both in milliseconds. -/
structure Clock where
  now : Int
  utcOffset : Int → Int

/-- Milliseconds in a day (the constant `86400000` of line 103). -/
def msPerDay : Int := 86400000

/-- The call `new Date(dateStr)` on a date-only ISO string: UTC midnight of that day. -/
def parseDate (dateStr : Int) : Int := dateStr * msPerDay

/-- The call `toDateString()`: the local calendar day of a time value. -/
def toDateString (clock : Clock) (t : Int) : Int := (t + clock.utcOffset t) / msPerDay

/-- The call `getDay()`: local weekday number, 0 = Sunday (1970-01-01 was a Thursday). -/
def getDay (clock : Clock) (t : Int) : Fin 7 :=
  ⟨((toDateString clock t + 4) % 7).toNat, by omega⟩

/-- The lookup table of line 76. -/
def days : List String := ["Dom", "Seg", "Ter", "Qua", "Qui", "Sex", "Sáb"]

/-- Lines 75-79. -/
def getDayName (clock : Clock) (dateStr : Int) : String :=
  let date := parseDate dateStr
  days.get (Fin.cast (by decide) (getDay clock date))

/-- Lines 98-107: the label returned for the matching day. -/
def rainDayLabel (clock : Clock) (dateStr : Int) : String :=
  let date := parseDate dateStr
  let today := clock.now
  if toDateString clock date = toDateString clock today then "Hoje"
  else if toDateString clock date = toDateString clock (today + 86400000) then "Amanhã"
  else getDayName clock dateStr

/-- The `for` loop of lines 96-109 from index `i` on; `fuel` bounds the number of iterations
and `forecast.daily.time.length - i` is always enough. -/
def getNextRainInfoLoop (clock : Clock) (forecast : Forecast) : Nat → Nat → Option String
  | 0, _ => none
  | fuel + 1, i =>
    if h : i < forecast.daily.time.length then
      if jsGreater forecast.daily.precipitation_probability_max[i]? 50 then
        some (rainDayLabel clock (forecast.daily.time.get ⟨i, h⟩))
      else getNextRainInfoLoop clock forecast fuel (i + 1)
    else none

/-- Lines 93-112; `none` is `null`. -/
def getNextRainInfo (clock : Clock) (forecast : Option Forecast) : Option String :=
  match forecast with
  | none => none
  | some forecast => getNextRainInfoLoop clock forecast forecast.daily.time.length 0

/-- The text of the rain alert (lines 139-141); `null` is interpolated as the word `null`. -/
def rainAlertText (clock : Clock) (weather : Weather) (forecast : Option Forecast) : String :=
  if weather.current.rain > 0 then "🌧️ Está chovendo agora!"
  else "Previsão de chuva para " ++ (getNextRainInfo clock forecast).getD "null"

/-- Day `i` of the forecast has a precipitation probability above 50 (an index past the end of
the probability array has none). -/
def exceedsThreshold (forecast : Forecast) (i : Nat) : Prop :=
  ∃ p, forecast.daily.precipitation_probability_max[i]? = some p ∧ 50 < p

/-! ## Concrete inputs -/

/-- A browser in São Paulo (UTC-3) at 12:00 local time on Monday 2024-01-15, which is day
19737 after 1970-01-01. -/
def saoPauloNoon : Clock :=
  { now := 19737 * 86400000 + 15 * 3600000, utcOffset := fun _ => -(3 * 3600000) }

/-- A browser on UTC at 15:00 on Monday 2024-01-15. -/
def utcAfternoon : Clock :=
  { now := 19737 * 86400000 + 15 * 3600000, utcOffset := fun _ => 0 }

/-- Five days dated 2024-01-15 to 2024-01-19 with the given probabilities. -/
def fiveDays (probabilities : List ℚ) : Forecast :=
  { daily := { time := [19737, 19738, 19739, 19740, 19741],
               precipitation_probability_max := probabilities } }

/-! ## The fetch cycle -/

/-- Outcome of `response.json()`: the parsed body, or a thrown exception with its message.
The cycle uses it with `β := Option _`, since a body may parse to `null`. -/
inductive JsonOutcome (β : Type) where
  | parsed (body : β)
  | threw (message : String)
  deriving DecidableEq, Repr

/-- Outcome of one `fetch`: the promise rejects (network error) or resolves with a response
whose `ok` flag and `json()` behaviour are given. -/
inductive FetchOutcome (β : Type) where
  | rejected (message : String)
  | resolved (ok : Bool) (json : JsonOutcome β)
  deriving DecidableEq, Repr

/-- Everything one `fetchWeather` cycle receives from the network.  When both fetches reject,
`Promise.all` rejects with the one that rejected first, which `forecastRejectsFirst` records. -/
structure CycleOutcome where
  current : FetchOutcome (Option Weather)
  forecast : FetchOutcome (Option Forecast)
  forecastRejectsFirst : Bool
  deriving DecidableEq, Repr

/-- The state setters called by `fetchWeather`, with the value passed (`none` is `null`). -/
inductive Action where
  | setLoading (value : Bool)
  | setError (value : Option String)
  | setWeather (value : Option Weather)
  | setForecast (value : Option Forecast)
  deriving DecidableEq, Repr

/-- Effect of one setter call on the state. -/
def applyAction (s : PageState) : Action → PageState
  | .setLoading value => { s with loading := value }
  | .setError value => { s with error := value }
  | .setWeather value => { s with weather := value }
  | .setForecast value => { s with forecast := value }

/-- The `catch` block (lines 44-47). -/
def catchBlock (message : String) : List Action :=
  [.setError (some message), .setLoading false]

/-- Setter calls made after `Promise.all` settles (lines 29-47). -/
def fetchWeatherAfterAwait (o : CycleOutcome) : List Action :=
  match o.current, o.forecast with
  | .rejected m1, .rejected m2 => catchBlock (if o.forecastRejectsFirst then m2 else m1)
  | .rejected m1, .resolved _ _ => catchBlock m1
  | .resolved _ _, .rejected m2 => catchBlock m2
  | .resolved currentOk currentJson, .resolved forecastOk forecastJson =>
    if !currentOk || !forecastOk then catchBlock "Erro ao buscar dados meteorológicos"
    else
      match currentJson with
      | .threw m => catchBlock m
      | .parsed currentData =>
        match forecastJson with
        | .threw m => catchBlock m
        | .parsed forecastData =>
          [.setWeather currentData, .setForecast forecastData, .setLoading false]

/-- All setter calls of one `fetchWeather` cycle, in program order (lines 15-48). -/
def fetchWeatherActions (o : CycleOutcome) : List Action :=
  [.setLoading true, .setError none] ++ fetchWeatherAfterAwait o

/-- One `fetchWeather` cycle as a function from the state before it to the state after it. -/
def fetchWeather (s : PageState) (o : CycleOutcome) : PageState :=
  (fetchWeatherActions o).foldl applyAction s

/-- A sequence of complete `fetchWeather` cycles, one after the other. -/
def runCycles (s : PageState) (os : List CycleOutcome) : PageState :=
  os.foldl fetchWeather s

/-! ## Concrete page states and outcomes -/

/-- A current-conditions body: no rain, partly cloudy. -/
def sampleWeather : Weather := { current := { rain := 0, weather_code := 2 } }

/-- Both responses OK with parsable bodies. -/
def bothOk : CycleOutcome :=
  { current := .resolved true (.parsed (some sampleWeather)),
    forecast := .resolved true (.parsed (some (fiveDays [80, 10, 10, 10, 10]))),
    forecastRejectsFirst := false }

/-- Both responses OK; the current-conditions body is the JSON text `null`, the forecast body
is an object. -/
def currentBodyNull : CycleOutcome :=
  { current := .resolved true (.parsed none),
    forecast := .resolved true (.parsed (some (fiveDays [80, 10, 10, 10, 10]))),
    forecastRejectsFirst := false }

/-- In a cycle where both responses are OK and both bodies parse, the two parsed bodies are
both present or both `null`; every other cycle satisfies this trivially. -/
def bodiesPaired (o : CycleOutcome) : Bool :=
  match o.current, o.forecast with
  | .resolved true (.parsed currentData), .resolved true (.parsed forecastData) =>
    currentData.isSome == forecastData.isSome
  | _, _ => true

/-- The current-conditions response is OK and the forecast response has status 500. -/
def forecastStatus500 : CycleOutcome :=
  { current := .resolved true (.parsed (some sampleWeather)),
    forecast := .resolved false (.threw "Unexpected token"),
    forecastRejectsFirst := false }

/-! ## Theorems: rain alert -/

theorem jsGreater_eq_true_iff (x : Option ℚ) (c : ℚ) :
    jsGreater x c = true ↔ ∃ p, x = some p ∧ c < p := by
  cases x with
  | none => simp [jsGreater]
  | some q => simp [jsGreater]

theorem jsGreater_iff_exceedsThreshold (forecast : Forecast) (i : Nat) :
    jsGreater forecast.daily.precipitation_probability_max[i]? 50 = true ↔
      exceedsThreshold forecast i :=
  jsGreater_eq_true_iff _ _

theorem willRainSoon_present_iff (w : Weather) (f : Forecast) :
    willRainSoon (some w) (some f) = true ↔ (w.current.rain > 0 ∨ exceedsThreshold f 0) := by
  by_cases hr : w.current.rain > 0
  · simp [willRainSoon, hr]
  · simp only [willRainSoon, hr, if_false, Bool.if_false_right, Bool.and_true, false_or,
      decide_eq_true_eq]
    exact jsGreater_iff_exceedsThreshold f 0

/-- C1: `willRainSoon` is true exactly when both inputs are present and either
`weather.current.rain > 0` or `forecast.daily.precipitation_probability_max[0] > 50`; it is false
when either input is absent, true for rain 0.1 whatever the forecast, true for rain 0 with
probability 51 and false for rain 0 with probability 50. -/
theorem willRainSoon_iff (weather : Option Weather) (forecast : Option Forecast) :
    (willRainSoon weather forecast = true ↔
      ∃ w f, weather = some w ∧ forecast = some f ∧
        (w.current.rain > 0 ∨
          ∃ p, f.daily.precipitation_probability_max[0]? = some p ∧ p > 50)) ∧
    willRainSoon none forecast = false ∧
    willRainSoon weather none = false ∧
    (∀ w f, w.current.rain = 0.1 → willRainSoon (some w) (some f) = true) ∧
    (∀ w f, w.current.rain = 0 → f.daily.precipitation_probability_max[0]? = some 51 →
      willRainSoon (some w) (some f) = true) ∧
    (∀ w f, w.current.rain = 0 → f.daily.precipitation_probability_max[0]? = some 50 →
      willRainSoon (some w) (some f) = false) := by
  refine ⟨?_, ?_, ?_, ?_, ?_, ?_⟩
  · cases weather with
    | none => simp [willRainSoon]
    | some w =>
      cases forecast with
      | none => simp [willRainSoon]
      | some f =>
        rw [willRainSoon_present_iff]
        constructor
        · intro h
          exact ⟨w, f, rfl, rfl, h⟩
        · rintro ⟨w2, f2, hw, hf, h⟩
          cases hw
          cases hf
          exact h
  · simp [willRainSoon]
  · cases weather <;> simp [willRainSoon]
  · intro w f h
    rw [willRainSoon_present_iff, h]
    left
    norm_num
  · intro w f h hp
    rw [willRainSoon_present_iff]
    right
    exact ⟨51, hp, by norm_num⟩
  · intro w f h hp
    rw [Bool.eq_false_iff]
    intro htrue
    rw [willRainSoon_present_iff, h] at htrue
    rcases htrue with h0 | ⟨p, hp2, h50⟩
    · exact absurd h0 (lt_irrefl 0)
    · rw [hp] at hp2
      cases hp2
      norm_num at h50

/-- Witness for C1: rain 0.1 with a 0% forecast, rain 0 with 51%, and rain 0 with 50%. -/
theorem willRainSoon_iff_witness :
    willRainSoon (some ⟨⟨0.1, 61⟩⟩) (some ⟨⟨[19737], [0]⟩⟩) = true ∧
    willRainSoon (some ⟨⟨0, 3⟩⟩) (some ⟨⟨[19737], [51]⟩⟩) = true ∧
    willRainSoon (some ⟨⟨0, 3⟩⟩) (some ⟨⟨[19737], [50]⟩⟩) = false :=
  ⟨(willRainSoon_iff none none).2.2.2.1 ⟨⟨0.1, 61⟩⟩ ⟨⟨[19737], [0]⟩⟩ rfl,
   (willRainSoon_iff none none).2.2.2.2.1 ⟨⟨0, 3⟩⟩ ⟨⟨[19737], [51]⟩⟩ rfl rfl,
   (willRainSoon_iff none none).2.2.2.2.2 ⟨⟨0, 3⟩⟩ ⟨⟨[19737], [50]⟩⟩ rfl rfl⟩

/-! ## Theorems: weather-code bands -/

theorem getWeatherIcon_eq_bandIcon (code : Int) :
    getWeatherIcon code = bandIcon (bandIndex code) := by
  unfold getWeatherIcon bandIndex
  split_ifs <;> rfl

theorem getWeatherDescription_eq_bandDescription (code : Int) :
    getWeatherDescription code = bandDescription (bandIndex code) := by
  unfold getWeatherDescription bandIndex
  split_ifs <;> rfl

theorem bandDescription_injective (a b : Fin 9) (h : bandDescription a = bandDescription b) :
    a = b := by
  revert h
  fin_cases a <;> fin_cases b <;> simp [bandDescription]

theorem bandIcon_eq_iff (a b : Fin 9) :
    bandIcon a = bandIcon b ↔
      a = b ∨ (a = 3 ∧ b = 5) ∨ (a = 5 ∧ b = 3) ∨ (a = 4 ∧ b = 6) ∨ (a = 6 ∧ b = 4) := by
  fin_cases a <;> fin_cases b <;> simp [bandIcon]

theorem bandIndex_eq_eight_iff (code : Int) : bandIndex code = 8 ↔ 99 < code := by
  unfold bandIndex
  split_ifs <;> simp <;> omega

/-- C4: for every integer code `getWeatherIcon` is the first-match lookup in the ordered band
table (0, then ≤ 3, ≤ 48, ≤ 67, ≤ 77, ≤ 82, ≤ 86, ≤ 99, else the default icon); the default
icon is returned exactly when the code exceeds 99, so never for a code in 0..99. -/
theorem getWeatherIcon_band_table (code : Int) :
    getWeatherIcon code = firstMatch iconBandTable "🌤️" code ∧
    (getWeatherIcon code = "🌤️" ↔ 99 < code) ∧
    (0 ≤ code → code ≤ 99 → getWeatherIcon code ≠ "🌤️") := by
  have hdef : getWeatherIcon code = "🌤️" ↔ 99 < code := by
    rw [getWeatherIcon_eq_bandIcon, ← bandIndex_eq_eight_iff]
    generalize bandIndex code = b
    fin_cases b <;> simp [bandIcon]
  refine ⟨?_, hdef, ?_⟩
  · unfold getWeatherIcon
    simp only [iconBandTable, firstMatch, decide_eq_true_eq]
  · intro _ h99 h
    have := hdef.mp h
    omega

/-- Witness for C4: code 99 is in the documented range and gets the storm icon, not the
default one. -/
theorem getWeatherIcon_band_table_witness : getWeatherIcon 99 ≠ "🌤️" :=
  (getWeatherIcon_band_table 99).2.2 (by decide) (by decide)

/-- C5 as stated fails: codes 60 (rain) and 80 (heavy rain) are both in 0..99 and get the same
icon but different descriptions. -/
theorem icon_partition_coarser_counterexample :
    (0 : Int) ≤ 60 ∧ (60 : Int) ≤ 99 ∧ (0 : Int) ≤ 80 ∧ (80 : Int) ≤ 99 ∧
    ¬ (getWeatherIcon 60 = getWeatherIcon 80 ↔
        getWeatherDescription 60 = getWeatherDescription 80) := by
  refine ⟨by decide, by decide, by decide, by decide, ?_⟩
  intro h
  have h1 : getWeatherIcon 60 = getWeatherIcon 80 := by decide
  have h2 := h.mp h1
  revert h2
  decide

/-- C5 amended: both functions use the same band boundaries, so for all integer codes (in
particular those in 0..99) equal descriptions imply equal icons; equal icons imply equal
descriptions except across the two pairs of bands that share an emoji (rain with heavy rain,
snow with heavy snow). -/
theorem description_band_refines_icon_band (a b : Int) :
    (getWeatherDescription a = getWeatherDescription b → getWeatherIcon a = getWeatherIcon b) ∧
    (getWeatherIcon a = getWeatherIcon b →
      getWeatherDescription a = getWeatherDescription b ∨
      (getWeatherDescription a ∈ ["Chuva", "Chuva forte"] ∧
        getWeatherDescription b ∈ ["Chuva", "Chuva forte"]) ∨
      (getWeatherDescription a ∈ ["Neve", "Neve forte"] ∧
        getWeatherDescription b ∈ ["Neve", "Neve forte"])) ∧
    (getWeatherDescription a = getWeatherDescription b ↔ bandIndex a = bandIndex b) := by
  have hiff : getWeatherDescription a = getWeatherDescription b ↔ bandIndex a = bandIndex b := by
    rw [getWeatherDescription_eq_bandDescription, getWeatherDescription_eq_bandDescription]
    exact ⟨bandDescription_injective _ _, fun h => by rw [h]⟩
  refine ⟨?_, ?_, hiff⟩
  · intro h
    rw [getWeatherIcon_eq_bandIcon, getWeatherIcon_eq_bandIcon, hiff.mp h]
  · intro h
    rw [getWeatherIcon_eq_bandIcon, getWeatherIcon_eq_bandIcon, bandIcon_eq_iff] at h
    rw [getWeatherDescription_eq_bandDescription, getWeatherDescription_eq_bandDescription]
    rcases h with h | ⟨h1, h2⟩ | ⟨h1, h2⟩ | ⟨h1, h2⟩ | ⟨h1, h2⟩
    · left; rw [h]
    all_goals (rw [h1, h2]; decide)

/-- Witness for the amended C5 at codes 61 and 63 (both rain). -/
theorem description_band_refines_icon_band_witness :
    getWeatherDescription 61 = getWeatherDescription 63 ∧ getWeatherIcon 61 = getWeatherIcon 63 :=
  ⟨by decide, (description_band_refines_icon_band 61 63).1 (by decide)⟩

/-! ## Theorems: next rainy day -/

theorem getNextRainInfoLoop_none (clock : Clock) (forecast : Forecast) :
    ∀ (fuel i : Nat),
      (∀ j, i ≤ j → j < forecast.daily.time.length → ¬ exceedsThreshold forecast j) →
      getNextRainInfoLoop clock forecast fuel i = none := by
  intro fuel
  induction fuel with
  | zero => intro i _; rfl
  | succ n ih =>
    intro i hall
    unfold getNextRainInfoLoop
    by_cases hi : i < forecast.daily.time.length
    · have hno : ¬ jsGreater forecast.daily.precipitation_probability_max[i]? 50 = true := by
        rw [jsGreater_iff_exceedsThreshold]
        exact hall i le_rfl hi
      simp only [hi, dite_true, hno, if_false]
      exact ih (i + 1) (fun j hj hlt => hall j (by omega) hlt)
    · simp only [hi, dite_false]

theorem getNextRainInfoLoop_first (clock : Clock) (forecast : Forecast) :
    ∀ (fuel i k : Nat) (hk : k < forecast.daily.time.length),
      i ≤ k → forecast.daily.time.length - i ≤ fuel →
      exceedsThreshold forecast k →
      (∀ j, i ≤ j → j < k → ¬ exceedsThreshold forecast j) →
      getNextRainInfoLoop clock forecast fuel i =
        some (rainDayLabel clock (forecast.daily.time.get ⟨k, hk⟩)) := by
  intro fuel
  induction fuel with
  | zero => intro i k hk hik hfuel; omega
  | succ n ih =>
    intro i k hk hik hfuel hex hbefore
    have hi : i < forecast.daily.time.length := by omega
    unfold getNextRainInfoLoop
    by_cases heq : i = k
    · subst heq
      have hyes := (jsGreater_iff_exceedsThreshold forecast i).mpr hex
      simp only [hi, dite_true, hyes, if_true]
    · have hno : ¬ jsGreater forecast.daily.precipitation_probability_max[i]? 50 = true := by
        rw [jsGreater_iff_exceedsThreshold]
        exact hbefore i le_rfl (by omega)
      simp only [hi, dite_true, hno, if_false]
      exact ih (i + 1) k hk (by omega) (by omega) hex
        (fun j hj hlt => hbefore j (by omega) hlt)

theorem getNextRainInfo_of_first (clock : Clock) (forecast : Forecast) (i : Nat)
    (hi : i < forecast.daily.time.length) (hex : exceedsThreshold forecast i)
    (hbefore : ∀ j, j < i → ¬ exceedsThreshold forecast j) :
    getNextRainInfo clock (some forecast) =
      some (rainDayLabel clock (forecast.daily.time.get ⟨i, hi⟩)) :=
  getNextRainInfoLoop_first clock forecast _ 0 i hi (Nat.zero_le _) (by omega) hex
    (fun j _ hlt => hbefore j hlt)

theorem getNextRainInfo_eq_none_iff (clock : Clock) (forecast : Forecast) :
    getNextRainInfo clock (some forecast) = none ↔
      ∀ i, i < forecast.daily.time.length → ¬ exceedsThreshold forecast i := by
  constructor
  · intro hnone i hi hex
    have hexists : ∃ k, k < forecast.daily.time.length ∧ exceedsThreshold forecast k :=
      ⟨i, hi, hex⟩
    classical
    have hspec := Nat.find_spec hexists
    have hmin : ∀ j, j < Nat.find hexists → ¬ exceedsThreshold forecast j := by
      intro j hj hexj
      exact Nat.find_min hexists hj ⟨by omega, hexj⟩
    rw [getNextRainInfo_of_first clock forecast (Nat.find hexists) hspec.1 hspec.2 hmin] at hnone
    exact absurd hnone (by simp)
  · intro hall
    exact getNextRainInfoLoop_none clock forecast _ 0 (fun j _ hlt => hall j hlt)

/-- C2: for a present forecast `getNextRainInfo` returns `null` exactly when no index below
`forecast.daily.time.length` has a probability above 50; otherwise it returns the label of the
least such index, and so gives the same result on any forecast that agrees with this one up to
and including that index, whatever the later days hold.  For an absent forecast it returns
`null`. -/
theorem getNextRainInfo_first_match (clock : Clock) (forecast : Forecast) :
    (getNextRainInfo clock (some forecast) = none ↔
      ∀ i, i < forecast.daily.time.length → ¬ exceedsThreshold forecast i) ∧
    (∀ i (hi : i < forecast.daily.time.length), exceedsThreshold forecast i →
      (∀ j, j < i → ¬ exceedsThreshold forecast j) →
      getNextRainInfo clock (some forecast) =
        some (rainDayLabel clock (forecast.daily.time.get ⟨i, hi⟩)) ∧
      ∀ other : Forecast,
        other.daily.time.take (i + 1) = forecast.daily.time.take (i + 1) →
        other.daily.precipitation_probability_max.take (i + 1) =
          forecast.daily.precipitation_probability_max.take (i + 1) →
        getNextRainInfo clock (some other) = getNextRainInfo clock (some forecast)) ∧
    getNextRainInfo clock none = none := by
  refine ⟨getNextRainInfo_eq_none_iff clock forecast, ?_, rfl⟩
  intro i hi hex hbefore
  have hres := getNextRainInfo_of_first clock forecast i hi hex hbefore
  refine ⟨hres, ?_⟩
  intro other htime hprob
  have htimeAt : ∀ j, j ≤ i → other.daily.time[j]? = forecast.daily.time[j]? := by
    intro j hj
    have := congrArg (fun l => l[j]?) htime
    simpa [List.getElem?_take, Nat.lt_succ_of_le hj] using this
  have hprobAt : ∀ j, j ≤ i → other.daily.precipitation_probability_max[j]? =
      forecast.daily.precipitation_probability_max[j]? := by
    intro j hj
    have := congrArg (fun l => l[j]?) hprob
    simpa [List.getElem?_take, Nat.lt_succ_of_le hj] using this
  have hsome : other.daily.time[i]? = some (forecast.daily.time.get ⟨i, hi⟩) := by
    rw [htimeAt i le_rfl]
    simp [List.getElem?_eq_getElem hi]
  have hi2 : i < other.daily.time.length := by
    by_contra hge
    rw [List.getElem?_eq_none (by omega)] at hsome
    exact absurd hsome (by simp)
  have hget : other.daily.time.get ⟨i, hi2⟩ = forecast.daily.time.get ⟨i, hi⟩ := by
    rw [List.getElem?_eq_getElem hi2] at hsome
    simpa using hsome
  have hex2 : exceedsThreshold other i := by
    unfold exceedsThreshold
    rw [hprobAt i le_rfl]
    exact hex
  have hbefore2 : ∀ j, j < i → ¬ exceedsThreshold other j := by
    intro j hj
    unfold exceedsThreshold
    rw [hprobAt j (by omega)]
    exact hbefore j hj
  rw [getNextRainInfo_of_first clock other i hi2 hex2 hbefore2, hget, hres]

/-- Witness for C2: with probabilities 10, 60, 90 the second day is the first above 50 and the
result is its label, although the third day has a higher probability. -/
theorem getNextRainInfo_first_match_witness :
    getNextRainInfo utcAfternoon (some ⟨⟨[19737, 19738, 19739], [10, 60, 90]⟩⟩) =
      some "Amanhã" :=
  ((getNextRainInfo_first_match utcAfternoon ⟨⟨[19737, 19738, 19739], [10, 60, 90]⟩⟩).2.1 1
    (by decide) ⟨60, rfl, by norm_num⟩
    (fun j hj => by
      have hj0 : j = 0 := by omega
      subst hj0
      rintro ⟨p, hp, h50⟩
      simp at hp
      subst hp
      norm_num at h50)).1.trans (by decide)

/-- C3, evaluation at the failing input: in a browser in São Paulo whose local date is day
19737 and with the forecast dated from that day on, a first rainy day at index 0 is labelled
with the weekday of the previous day (Sunday) instead of "Hoje", a first rainy day at index 1
is labelled "Hoje" instead of "Amanhã", and a rainy day at index 2 only is labelled "Amanhã"
instead of its weekday (Wednesday, "Qua"). -/
theorem getNextRainInfo_negative_offset_shift :
    toDateString saoPauloNoon saoPauloNoon.now = 19737 ∧
    getNextRainInfo saoPauloNoon (some (fiveDays [80, 10, 10, 10, 10])) = some "Dom" ∧
    getNextRainInfo saoPauloNoon (some (fiveDays [10, 80, 10, 10, 10])) = some "Hoje" ∧
    getNextRainInfo saoPauloNoon (some (fiveDays [10, 10, 80, 10, 10])) = some "Amanhã" ∧
    days.get ⟨((19739 + 4) % 7 : Nat), by decide⟩ = "Qua" := by
  refine ⟨by decide, by decide, by decide, by decide, by decide⟩

theorem toDateString_parseDate (clock : Clock) (d : Int)
    (h : ∀ t, 0 ≤ clock.utcOffset t ∧ clock.utcOffset t < msPerDay) :
    toDateString clock (parseDate d) = d := by
  have h0 := (h (parseDate d)).1
  have h1 := (h (parseDate d)).2
  unfold toDateString
  generalize clock.utcOffset (parseDate d) = off at h0 h1
  unfold parseDate msPerDay at *
  omega

theorem toDateString_add_day (clock : Clock) (t : Int)
    (h : clock.utcOffset (t + 86400000) = clock.utcOffset t) :
    toDateString clock (t + 86400000) = toDateString clock t + 1 := by
  unfold toDateString
  rw [h]
  unfold msPerDay
  omega

/-- The labels of C3 in a time zone at or ahead of UTC (offset always in `[0, 24h)`) whose
offset is the same now and 24 hours from now: with day `k` dated `today + k`, a first match at
index 0 is "Hoje", at index 1 "Amanhã", at a later index `k` the entry of the weekday table at
that date's weekday number, and no match gives `null`. -/
theorem getNextRainInfo_labels_of_nonneg_offset (clock : Clock) (forecast : Forecast)
    (hoff : ∀ t, 0 ≤ clock.utcOffset t ∧ clock.utcOffset t < msPerDay)
    (hday : clock.utcOffset (clock.now + 86400000) = clock.utcOffset clock.now)
    (hdated : ∀ k (hk : k < forecast.daily.time.length),
      forecast.daily.time.get ⟨k, hk⟩ = toDateString clock clock.now + k) :
    (0 < forecast.daily.time.length → exceedsThreshold forecast 0 →
      getNextRainInfo clock (some forecast) = some "Hoje") ∧
    (1 < forecast.daily.time.length → ¬ exceedsThreshold forecast 0 →
      exceedsThreshold forecast 1 →
      getNextRainInfo clock (some forecast) = some "Amanhã") ∧
    (∀ k, k < forecast.daily.time.length → 2 ≤ k → exceedsThreshold forecast k →
      (∀ j, j < k → ¬ exceedsThreshold forecast j) →
      getNextRainInfo clock (some forecast) =
        some (days.get ⟨((toDateString clock clock.now + k + 4) % 7).toNat,
          by simp only [days, List.length_cons, List.length_nil]; omega⟩)) ∧
    ((∀ i, i < forecast.daily.time.length → ¬ exceedsThreshold forecast i) →
      getNextRainInfo clock (some forecast) = none) := by
  refine ⟨?_, ?_, ?_, (getNextRainInfo_eq_none_iff clock forecast).mpr⟩
  · intro h hex
    rw [getNextRainInfo_of_first clock forecast 0 h hex (fun j hj => by omega), hdated 0 h]
    simp [rainDayLabel, toDateString_parseDate clock _ hoff]
  · intro h hno hex
    rw [getNextRainInfo_of_first clock forecast 1 h hex
      (fun j hj => by have : j = 0 := by omega
                      subst this; exact hno), hdated 1 h]
    simp [rainDayLabel, toDateString_parseDate clock _ hoff, toDateString_add_day clock _ hday]
  · intro k hk hk2 hex hbefore
    rw [getNextRainInfo_of_first clock forecast k hk hex hbefore, hdated k hk]
    have hne1 : ¬ (toDateString clock clock.now + (k : Int) = toDateString clock clock.now) := by
      omega
    have hne2 : ¬ (toDateString clock clock.now + (k : Int) =
        toDateString clock clock.now + 1) := by omega
    simp only [rainDayLabel, toDateString_parseDate clock _ hoff, toDateString_add_day clock _ hday,
      hne1, hne2, if_false, getDayName, getDay]
    rfl

/-- C10: when the forecast has at least one dated day, the alert is shown (`willRainSoon()`
true) and it is not raining now, `getNextRainInfo()` is the label of day index 0, so the alert
text names a day.  Without the condition on `forecast.daily.time` this fails: with an empty
`time` array and probabilities `[80]` the alert is shown and `getNextRainInfo()` is `null`. -/
theorem rain_alert_names_day_zero :
    (∀ (clock : Clock) (weather : Weather) (forecast : Forecast)
        (hlen : 0 < forecast.daily.time.length),
        willRainSoon (some weather) (some forecast) = true →
        ¬ weather.current.rain > 0 →
        getNextRainInfo clock (some forecast) =
          some (rainDayLabel clock (forecast.daily.time.get ⟨0, hlen⟩)) ∧
        rainAlertText clock weather (some forecast) =
          "Previsão de chuva para " ++ rainDayLabel clock (forecast.daily.time.get ⟨0, hlen⟩)) ∧
    (∃ (clock : Clock) (weather : Weather) (forecast : Forecast),
        forecast.daily.time = [] ∧ forecast.daily.precipitation_probability_max ≠ [] ∧
        willRainSoon (some weather) (some forecast) = true ∧
        ¬ weather.current.rain > 0 ∧
        getNextRainInfo clock (some forecast) = none ∧
        rainAlertText clock weather (some forecast) = "Previsão de chuva para null") := by
  constructor
  · intro clock weather forecast hlen hsoon hdry
    have hex : exceedsThreshold forecast 0 := by
      rcases (willRainSoon_present_iff weather forecast).mp hsoon with hrain | hp
      · exact absurd hrain hdry
      · exact hp
    have hres := getNextRainInfo_of_first clock forecast 0 hlen hex (fun j hj => by omega)
    refine ⟨hres, ?_⟩
    simp only [rainAlertText, hdry, if_false, hres, Option.getD_some]
  · refine ⟨utcAfternoon, sampleWeather, ⟨⟨[], [80]⟩⟩, rfl, by simp, by decide, by decide,
      by decide, by decide⟩

/-- Witness for C10: dry now, 80% today, in a browser on UTC. -/
theorem rain_alert_names_day_zero_witness :
    getNextRainInfo utcAfternoon (some (fiveDays [80, 10, 10, 10, 10])) = some "Hoje" ∧
    rainAlertText utcAfternoon sampleWeather (some (fiveDays [80, 10, 10, 10, 10])) =
      "Previsão de chuva para Hoje" :=
  ⟨(rain_alert_names_day_zero.1 utcAfternoon sampleWeather (fiveDays [80, 10, 10, 10, 10])
      (by decide) (by decide) (by decide)).1.trans (by decide),
   (rain_alert_names_day_zero.1 utcAfternoon sampleWeather (fiveDays [80, 10, 10, 10, 10])
      (by decide) (by decide) (by decide)).2.trans (by decide)⟩

/-! ## Theorems: the fetch cycle -/

theorem fetchWeather_of_catch (s : PageState) (o : CycleOutcome) (message : String)
    (h : fetchWeatherAfterAwait o = catchBlock message) :
    fetchWeather s o = { s with loading := false, error := some message } := by
  simp [fetchWeather, fetchWeatherActions, h, catchBlock, applyAction]

theorem fetchWeather_of_success (s : PageState) (o : CycleOutcome)
    (currentData : Option Weather) (forecastData : Option Forecast)
    (h : fetchWeatherAfterAwait o =
      [.setWeather currentData, .setForecast forecastData, .setLoading false]) :
    fetchWeather s o =
      { weather := currentData, forecast := forecastData, loading := false,
        error := none } := by
  simp [fetchWeather, fetchWeatherActions, h, applyAction]

theorem fetchWeatherAfterAwait_cases (o : CycleOutcome) :
    (∃ message, fetchWeatherAfterAwait o = catchBlock message) ∨
    (∃ currentData forecastData, fetchWeatherAfterAwait o =
      [.setWeather currentData, .setForecast forecastData, .setLoading false]) := by
  obtain ⟨current, forecast, first⟩ := o
  cases current with
  | rejected m1 =>
    cases forecast with
    | rejected m2 => exact Or.inl ⟨_, rfl⟩
    | resolved ok2 j2 => exact Or.inl ⟨_, rfl⟩
  | resolved ok1 j1 =>
    cases forecast with
    | rejected m2 => exact Or.inl ⟨_, rfl⟩
    | resolved ok2 j2 =>
      cases ok1 <;> cases ok2 <;> cases j1 <;> cases j2 <;>
        first
        | exact Or.inl ⟨_, rfl⟩
        | exact Or.inr ⟨_, _, rfl⟩

/-- C6 as stated fails: after a successful cycle, a cycle whose forecast response has status
500 leaves `weather` and `forecast` set (to the stale values), not unset. -/
theorem fetchWeather_failure_keeps_stale_counterexample :
    forecastStatus500.forecast = .resolved false (.threw "Unexpected token") ∧
    (fetchWeather (fetchWeather initialState bothOk) forecastStatus500).weather =
      some sampleWeather ∧
    (fetchWeather (fetchWeather initialState bothOk) forecastStatus500).forecast =
      some (fiveDays [80, 10, 10, 10, 10]) ∧
    ¬ ((fetchWeather (fetchWeather initialState bothOk) forecastStatus500).weather = none ∧
       (fetchWeather (fetchWeather initialState bothOk) forecastStatus500).forecast = none) := by
  refine ⟨rfl, rfl, rfl, ?_⟩
  rintro ⟨h, _⟩
  exact absurd h (by decide)

/-- C6 amended: when both fetches resolve and either response is not OK, the cycle ends with
`error` set to the generic non-empty message (the same whichever response failed), `loading`
false, and `weather` and `forecast` exactly as they were before the cycle: nothing from either
body is stored, and both stay unset when they were unset before. -/
theorem fetchWeather_not_ok (s : PageState) (currentOk forecastOk : Bool)
    (currentJson : JsonOutcome (Option Weather)) (forecastJson : JsonOutcome (Option Forecast))
    (first : Bool)
    (h : currentOk = false ∨ forecastOk = false) :
    fetchWeather s ⟨.resolved currentOk currentJson, .resolved forecastOk forecastJson, first⟩ =
      { s with loading := false, error := some "Erro ao buscar dados meteorológicos" } ∧
    "Erro ao buscar dados meteorológicos" ≠ "" ∧
    (s.weather = none → s.forecast = none →
      (fetchWeather s
        ⟨.resolved currentOk currentJson, .resolved forecastOk forecastJson, first⟩).weather
          = none ∧
      (fetchWeather s
        ⟨.resolved currentOk currentJson, .resolved forecastOk forecastJson, first⟩).forecast
          = none) := by
  have hstep : fetchWeather s
      ⟨.resolved currentOk currentJson, .resolved forecastOk forecastJson, first⟩ =
      { s with loading := false, error := some "Erro ao buscar dados meteorológicos" } := by
    apply fetchWeather_of_catch
    rcases h with h | h <;> subst h <;> simp [fetchWeatherAfterAwait]
  refine ⟨hstep, by decide, ?_⟩
  intro hw hf
  rw [hstep]
  exact ⟨hw, hf⟩

/-- Witness for the amended C6: from the initial state, a forecast response with status 500
leaves both datasets unset and sets the generic error message. -/
theorem fetchWeather_not_ok_witness :
    fetchWeather initialState forecastStatus500 =
      { weather := none, forecast := none, loading := false,
        error := some "Erro ao buscar dados meteorológicos" } :=
  (fetchWeather_not_ok initialState true false (.parsed (some sampleWeather))
    (.threw "Unexpected token") false (Or.inr rfl)).1

/-- C7: from every prior state, a cycle with two OK responses whose bodies parse ends with
`weather` and `forecast` equal to the parsed bodies (whatever `json()` returned, `null`
included), `error` null and `loading` false; and in
every cycle the first setter call is `setLoading(true)`, so `loading` is true at the start, and
`loading` is false in the final state. -/
theorem fetchWeather_success_and_loading (s : PageState) :
    (∀ (currentData : Option Weather) (forecastData : Option Forecast) (first : Bool),
      fetchWeather s
        ⟨.resolved true (.parsed currentData), .resolved true (.parsed forecastData), first⟩ =
        { weather := currentData, forecast := forecastData, loading := false,
          error := none }) ∧
    (∀ o : CycleOutcome,
      (∃ rest, fetchWeatherActions o = Action.setLoading true :: rest ∧
        (applyAction s (Action.setLoading true)).loading = true ∧
        fetchWeather s o = rest.foldl applyAction (applyAction s (Action.setLoading true))) ∧
      (fetchWeather s o).loading = false) := by
  constructor
  · intro currentData forecastData first
    exact fetchWeather_of_success s _ currentData forecastData rfl
  · intro o
    refine ⟨⟨_, rfl, rfl, rfl⟩, ?_⟩
    rcases fetchWeatherAfterAwait_cases o with ⟨m, hm⟩ | ⟨w, f, hwf⟩
    · rw [fetchWeather_of_catch s o m hm]
    · rw [fetchWeather_of_success s o w f hwf]

theorem fetchWeatherAfterAwait_success_inv (o : CycleOutcome)
    (currentData : Option Weather) (forecastData : Option Forecast)
    (h : fetchWeatherAfterAwait o =
      [.setWeather currentData, .setForecast forecastData, .setLoading false]) :
    ∃ first, o =
      ⟨.resolved true (.parsed currentData), .resolved true (.parsed forecastData), first⟩ := by
  obtain ⟨current, forecast, first⟩ := o
  cases current with
  | rejected m1 =>
    cases forecast <;> simp [fetchWeatherAfterAwait, catchBlock] at h
  | resolved ok1 j1 =>
    cases forecast with
    | rejected m2 => simp [fetchWeatherAfterAwait, catchBlock] at h
    | resolved ok2 j2 =>
      cases ok1 <;> cases ok2 <;> cases j1 <;> cases j2 <;>
        simp [fetchWeatherAfterAwait, catchBlock] at h
      obtain ⟨h1, h2⟩ := h
      subst h1
      subst h2
      exact ⟨first, rfl⟩

theorem fetchWeather_preserves_pairing (s : PageState) (o : CycleOutcome)
    (ho : bodiesPaired o = true) (h : s.weather.isSome = s.forecast.isSome) :
    (fetchWeather s o).weather.isSome = (fetchWeather s o).forecast.isSome := by
  rcases fetchWeatherAfterAwait_cases o with ⟨m, hm⟩ | ⟨w, f, hwf⟩
  · rw [fetchWeather_of_catch s o m hm]
    exact h
  · rw [fetchWeather_of_success s o w f hwf]
    obtain ⟨first, hfirst⟩ := fetchWeatherAfterAwait_success_inv o w f hwf
    subst hfirst
    simpa [bodiesPaired] using ho

theorem runCycles_preserves_pairing (os : List CycleOutcome) :
    ∀ s : PageState, (∀ o ∈ os, bodiesPaired o = true) →
      s.weather.isSome = s.forecast.isSome →
      (runCycles s os).weather.isSome = (runCycles s os).forecast.isSome := by
  induction os with
  | nil => intro s _ h; exact h
  | cons o rest ih =>
    intro s hos h
    exact ih (fetchWeather s o) (fun o2 ho2 => hos o2 (List.mem_cons_of_mem _ ho2))
      (fetchWeather_preserves_pairing s o (hos o (List.mem_cons_self _ _)) h)

/-- C8 as stated fails: from the initial state, one cycle with two OK responses whose
current-conditions body parses to `null` and whose forecast body is an object ends with
`weather` absent and `forecast` present. -/
theorem weather_forecast_unpaired_counterexample :
    bodiesPaired currentBodyNull = false ∧
    (runCycles initialState [currentBodyNull]).weather = none ∧
    (runCycles initialState [currentBodyNull]).forecast =
      some (fiveDays [80, 10, 10, 10, 10]) ∧
    ¬ (((runCycles initialState [currentBodyNull]).weather.isSome ∧
        (runCycles initialState [currentBodyNull]).forecast.isSome) ∨
       ((runCycles initialState [currentBodyNull]).weather = none ∧
        (runCycles initialState [currentBodyNull]).forecast = none)) := by
  refine ⟨rfl, rfl, rfl, ?_⟩
  rintro (⟨h, _⟩ | ⟨_, h⟩)
  · exact absurd h (by decide)
  · exact absurd h (by decide)

/-- C8 amended: in every state at the completion of a sequence of complete `fetchWeather`
cycles from the initial state, with arbitrary outcomes (OK or not, rejected fetches, exceptions
from `json()`) in which every pair of OK responses yields two parsed bodies that are both
present or both `null`, `weather` and `forecast` are both present or both absent. -/
theorem weather_forecast_paired (os : List CycleOutcome)
    (hos : ∀ o ∈ os, bodiesPaired o = true) :
    ((runCycles initialState os).weather.isSome ∧ (runCycles initialState os).forecast.isSome) ∨
    ((runCycles initialState os).weather = none ∧ (runCycles initialState os).forecast = none) := by
  have h := runCycles_preserves_pairing os initialState hos rfl
  cases hw : (runCycles initialState os).weather with
  | none =>
    rw [hw] at h
    right
    refine ⟨rfl, ?_⟩
    cases hf : (runCycles initialState os).forecast with
    | none => rfl
    | some f => rw [hf] at h; simp at h
  | some w =>
    rw [hw] at h
    left
    refine ⟨rfl, ?_⟩
    rw [← h]
    rfl

/-- Witness for the amended C8: a successful cycle followed by a cycle whose forecast response
has status 500 ends with both datasets present. -/
theorem weather_forecast_paired_witness :
    (∀ o ∈ [bothOk, forecastStatus500], bodiesPaired o = true) ∧
    (((runCycles initialState [bothOk, forecastStatus500]).weather.isSome ∧
      (runCycles initialState [bothOk, forecastStatus500]).forecast.isSome) ∨
     ((runCycles initialState [bothOk, forecastStatus500]).weather = none ∧
      (runCycles initialState [bothOk, forecastStatus500]).forecast = none)) :=
  ⟨by decide, weather_forecast_paired [bothOk, forecastStatus500] (by decide)⟩

/-- C9: running `fetchWeather` twice in succession with the same outcomes gives exactly the
state that running it once gives, and so the same `willRainSoon`, icon and description. -/
theorem fetchWeather_idempotent (s : PageState) (o : CycleOutcome) :
    fetchWeather (fetchWeather s o) o = fetchWeather s o ∧
    willRainSoon (fetchWeather (fetchWeather s o) o).weather
        (fetchWeather (fetchWeather s o) o).forecast =
      willRainSoon (fetchWeather s o).weather (fetchWeather s o).forecast ∧
    (fetchWeather (fetchWeather s o) o).weather.map
        (fun w => (getWeatherIcon w.current.weather_code,
          getWeatherDescription w.current.weather_code)) =
      (fetchWeather s o).weather.map
        (fun w => (getWeatherIcon w.current.weather_code,
          getWeatherDescription w.current.weather_code)) := by
  have h : fetchWeather (fetchWeather s o) o = fetchWeather s o := by
    rcases fetchWeatherAfterAwait_cases o with ⟨m, hm⟩ | ⟨w, f, hwf⟩
    · rw [fetchWeather_of_catch _ o m hm, fetchWeather_of_catch s o m hm]
    · rw [fetchWeather_of_success _ o w f hwf, fetchWeather_of_success s o w f hwf]
  refine ⟨h, ?_, ?_⟩ <;> rw [h]

end Home
